import Mathlib

/-!
# WeatherInsight — verification of the query-interpretation / forecast-resolution pipeline

Shallow embedding of the repository's core logic:

* `get_city_and_forecast_days_for_weatherapi`
  (src/backend/modules/llm_extract_city_and_forecast_days.py),
* `get_weather_forecast` (src/backend/modules/weatherapi_forecast_data.py),
* `get_weather_llm_answer` (src/backend/modules/llm_weather_answer.py).

Modelling conventions:

* Opaque external capabilities (the Gemini model, `json.loads`, the ipinfo
  geolocation call, the WeatherAPI provider, `langdetect`) are parameters of the
  embedding: each is a value/oracle describing what the single call the code makes
  would return or raise.
* Python exceptions are `Except.error`; a function whose body can let an exception
  escape returns `Except String _`, while a function that catches everything (the
  extractor) returns a plain record.
* Python `datetime.date` is a year/month/day record; `date.toordinal()` and
  `strptime` with the two fixed formats used by the code are implemented below,
  following CPython's `_strptime` regexes (`%Y` = 4 digits, `%m`/`%d`/`%H`/`%M` =
  one or two digits with the documented ranges, full-string match required).
* Numeric temperature payloads are carried opaquely (never computed on), typed `Int`.
* `datetime.now()` is split into the calendar date `today` and `nowHour`; the
  extractor and the resolver are assumed to run on the same calendar day.
-/

deriving instance DecidableEq for Except

namespace WeatherInsight

/-- Python truthiness of an optional string: `None` and `""` are falsy. -/
def pyTruthyStr : Option String → Bool
  | none => false
  | some s => !s.data.isEmpty

/-- Python `str.strip()` (drop leading/trailing whitespace). -/
def pyStrip (s : String) : String :=
  ⟨((s.data.dropWhile Char.isWhitespace).reverse.dropWhile Char.isWhitespace).reverse⟩

def digitVal (c : Char) : Option Nat :=
  if c.isDigit then some (c.toNat - 48) else none

/-- CPython strptime `%Y`: exactly four digits. -/
def parseYear4 : List Char → Option (Nat × List Char)
  | a :: b :: c :: d :: rest =>
    match digitVal a, digitVal b, digitVal c, digitVal d with
    | some x, some y, some z, some w => some (((x * 10 + y) * 10 + z) * 10 + w, rest)
    | _, _, _, _ => none
  | _ => none

/-- CPython strptime one-or-two-digit field (`%m`, `%d`, `%H`, `%M`): a two-digit
match must lie in `[two_lo, two_hi]`, otherwise a single digit `≥ loneMin` is
consumed (mirroring the regex alternations `1[0-2]|0[1-9]|[1-9]` etc.). -/
def parseTwoOrOne (loneMin two_lo two_hi : Nat) : List Char → Option (Nat × List Char)
  | a :: b :: rest =>
    match digitVal a, digitVal b with
    | some x, some y =>
      let v := x * 10 + y
      if two_lo ≤ v ∧ v ≤ two_hi then some (v, rest)
      else if loneMin ≤ x then some (x, b :: rest)
      else none
    | some x, none => if loneMin ≤ x then some (x, b :: rest) else none
    | none, _ => none
  | [a] =>
    match digitVal a with
    | some x => if loneMin ≤ x then some (x, []) else none
    | none => none
  | [] => none

def expectChar (c : Char) : List Char → Option (List Char)
  | a :: rest => if a = c then some rest else none
  | [] => none

def isLeap (y : Nat) : Bool := (y % 4 == 0 && y % 100 != 0) || (y % 400 == 0)

def daysInMonth (y m : Nat) : Nat :=
  if m = 2 then (if isLeap y then 29 else 28)
  else if m = 4 ∨ m = 6 ∨ m = 9 ∨ m = 11 then 30
  else 31

/-- Python `datetime.date` (as produced by `.date()` / `strptime`). -/
structure Date where
  year : Nat
  month : Nat
  day : Nat
deriving DecidableEq

/-- `datetime.strptime(s, "%Y-%m-%d")`'s date part on a character stream,
including the constructor's calendar validation (year ≥ 1, day ≤ month length). -/
def parse_date_chars (cs : List Char) : Option (Date × List Char) := do
  let (y, r1) ← parseYear4 cs
  let r2 ← expectChar '-' r1
  let (m, r3) ← parseTwoOrOne 1 1 12 r2
  let r4 ← expectChar '-' r3
  let (d, r5) ← parseTwoOrOne 1 1 31 r4
  if 1 ≤ y ∧ d ≤ daysInMonth y m then pure (⟨y, m, d⟩, r5) else none

/-- Python `datetime.strptime(s, "%Y-%m-%d").date()`; `none` models the
`ValueError` raised on a non-matching string (full match required). -/
def parse_date (s : String) : Option Date :=
  match parse_date_chars s.data with
  | some (d, []) => some d
  | _ => none

/-- The `.hour` of `datetime.strptime(s, "%Y-%m-%d %H:%M")`; `none` models the
`ValueError` on a non-matching string. -/
def parse_time_hour (s : String) : Option Nat :=
  match parse_date_chars s.data with
  | some (_, rest) =>
    match expectChar ' ' rest with
    | some r1 =>
      match parseTwoOrOne 0 0 23 r1 with
      | some (h, r2) =>
        match expectChar ':' r2 with
        | some r3 =>
          match parseTwoOrOne 0 0 59 r3 with
          | some (_, []) => some h
          | _ => none
        | none => none
      | none => none
    | none => none
  | none => none

def daysBeforeMonth (y m : Nat) : Nat :=
  (List.range (m - 1)).foldl (fun acc i => acc + daysInMonth y (i + 1)) 0

/-- Python `date.toordinal()`: proleptic-Gregorian day number, 0001-01-01 ↦ 1.
`(a - b).days` on Python dates is `a.toordinal() - b.toordinal()`. -/
def Date.toOrdinal (d : Date) : Nat :=
  365 * (d.year - 1) + (d.year - 1) / 4 - (d.year - 1) / 100 + (d.year - 1) / 400
    + daysBeforeMonth d.year d.month + d.day

def pad2 (n : Nat) : String := if n < 10 then "0" ++ Nat.repr n else Nat.repr n

def pad4 (n : Nat) : String :=
  if n < 10 then "000" ++ Nat.repr n
  else if n < 100 then "00" ++ Nat.repr n
  else if n < 1000 then "0" ++ Nat.repr n
  else Nat.repr n

/-- Python `date.strftime("%Y-%m-%d")`. -/
def strftimeYmd (d : Date) : String :=
  pad4 d.year ++ "-" ++ pad2 d.month ++ "-" ++ pad2 d.day

/-! ## Intent extraction (`llm_extract_city_and_forecast_days.py`) -/

/-- Behaviour of one call to the opaque language model: it either raises or
returns response text. The prompt is consumed only by the model itself, so it is
not reconstructed here. -/
inductive LLMBehaviour where
  | raise (msg : String)
  | text (s : String)

/-- The three keys the code reads from the object `json.loads` yields. Each key
may be absent (`none`), present with JSON `null` (`some none`), or present with a
value — the distinction matters because `dict.setdefault` only fires on an
*absent* key. -/
structure ExtractObj where
  city : Option (Option String) := none
  forecast_date : Option (Option String) := none
  hour : Option (Option Int) := none
deriving DecidableEq

/-- The dictionary `get_city_and_forecast_days_for_weatherapi` returns, flattened
to the fields its callers read with `.get` (which conflates an absent key with a
`None` value, exactly as the consumer `get_weather_forecast` does). -/
structure IntentResult where
  city : Option String
  forecast_date : Option String
  hour : Option Int
  forecast_days : Int
  error : Option String
deriving DecidableEq

/-- The record built by the extractor's `except` clause:
`{"city": "Berlin", "forecast_days": 1, "hour": None, "error": str(e)}`
(no `forecast_date` key). Exception message texts are abstracted. -/
def fullDefault (msg : String) : IntentResult :=
  ⟨some "Berlin", none, none, 1, some msg⟩

def lbrace : Char := Char.ofNat 123
def rbrace : Char := Char.ofNat 125

/-- `re.search(r'\x7b.*\x7d', result_text, re.DOTALL)`: the leftmost, greedy
match runs from the *first* opening brace to the *last* closing brace of the
whole text (when the latter comes after the former). -/
def extract_fragment (s : String) : Option String :=
  let cs := s.data
  match cs.findIdx? (· = lbrace) with
  | none => none
  | some i =>
    match cs.reverse.findIdx? (· = rbrace) with
    | none => none
    | some rj =>
      let j := cs.length - 1 - rj
      if i < j then some ⟨(cs.drop i).take (j - i + 1)⟩ else none

/-- The `setdefault` / `forecast_days` tail of the extractor's `try` block,
applied to the decoded dictionary (or to the no-match fallback
`{"city": None, "forecast_date": None, "hour": None}`). A `ValueError` from
`strptime` is caught by the enclosing `except`, producing `fullDefault`. -/
def applyDefaultsAndDays (today : Date) (obj : ExtractObj) : IntentResult :=
  let city : Option String := obj.city.getD (some "Berlin")
  let hour : Option Int := obj.hour.getD none
  let target_date_str : Option String := obj.forecast_date.getD none
  if pyTruthyStr target_date_str then
    match parse_date (target_date_str.getD "") with
    | some target_date =>
      ⟨city, target_date_str, hour,
        (target_date.toOrdinal : Int) - (today.toOrdinal : Int) + 1, none⟩
    | none => fullDefault "ValueError"
  else ⟨city, target_date_str, hour, 1, none⟩

/-- `get_city_and_forecast_days_for_weatherapi(question)`. `today` is
`datetime.now().date()`; `llm` is the model's behaviour on the constructed
prompt; `jsonDecode` is the `json.loads` oracle (`none` = raised
`JSONDecodeError`), restricted to the keys the code reads. Every exception in
the `try` block is caught, so the function returns a plain record. -/
def get_city_and_forecast_days_for_weatherapi (today : Date)
    (llm : LLMBehaviour) (jsonDecode : String → Option ExtractObj) : IntentResult :=
  match llm with
  | .raise msg => fullDefault msg
  | .text raw =>
    let result_text := pyStrip raw
    match extract_fragment result_text with
    | some frag =>
      match jsonDecode frag with
      | none => fullDefault "JSONDecodeError"
      | some obj => applyDefaultsAndDays today obj
    | none => applyDefaultsAndDays today ⟨some none, some none, some none⟩

/-! ## Forecast resolution (`weatherapi_forecast_data.py`) -/

/-- Behaviour of `requests.get("https://ipinfo.io/json").json()` for the single
geolocation call: `raise` covers any exception in the bare `except:` (network
error, bad JSON); `resp cityField` is the decoded object's `"city"` key —
absent (`none`), present with JSON `null` (`some none`), or a string. -/
inductive GeoBehaviour where
  | raise
  | resp (cityField : Option (Option String))

/-- One hourly entry of the provider response
(`h["time"]`, `h["temp_c"]`, `h["condition"]["text"]`). -/
structure HourEntry where
  time : String
  temp_c : Int
  condition : String
deriving DecidableEq

/-- One entry of `data["forecast"]["forecastday"]`, with the `"day"` subobject
flattened to the three fields the code reads. -/
structure ForecastDayEntry where
  date : String
  maxtemp_c : Int
  mintemp_c : Int
  condition : String
  hour : List HourEntry
deriving DecidableEq

/-- The decoded provider body, down to `data["forecast"]["forecastday"]`. -/
structure ForecastData where
  forecastday : List ForecastDayEntry
deriving DecidableEq

/-- Behaviour of the single WeatherAPI request the code makes. `raiseNet` is an
exception from `requests.get` itself (transport failure) — note the call is not
inside any `try`. `resp status_code body` is a response; `body` is what
`response.json()` plus the `["forecast"]["forecastday"]` accesses yield
(`Except.error` when they raise). The requested city and day-count only shape
the URL the opaque provider consumes. -/
inductive WeatherBehaviour where
  | raiseNet
  | resp (status_code : Nat) (body : Except String ForecastData)

structure HourOut where
  time : String
  temp_c : Int
  condition : String
deriving DecidableEq

/-- The `day_dict` the code builds (plus optional `"hours"`). -/
structure DayDict where
  date : String
  max_temp_c : Int
  min_temp_c : Int
  condition : String
  hours : Option (List HourOut)
deriving DecidableEq

/-- The dictionary `get_weather_forecast` returns: either the error marker
`{"error": msg}` or `{"city": city, "forecast_day": day_dict}`. The city is
optional because it is whatever the fallback chain produced. -/
inductive ForecastOutput where
  | error (msg : String)
  | success (city : Option String) (forecast_day : DayDict)
deriving DecidableEq

/-- The city fallback block: `if not city:` then geolocation with
`ip_data.get("city", "Berlin")` inside `try/except: city = "Berlin"`. -/
def resolve_city (city : Option String) (geo : GeoBehaviour) : Option String :=
  if pyTruthyStr city then city
  else
    match geo with
    | .raise => some "Berlin"
    | .resp none => some "Berlin"
    | .resp (some v) => v

/-- The hour fallback: `if hour is None: hour = (datetime.now().hour + 2) % 24`. -/
def resolved_hour (intent : IntentResult) (nowHour : Nat) : Int :=
  match intent.hour with
  | some h => h
  | none => ((nowHour + 2) % 24 : Nat)

/-- The target-date string the day filter compares against: the extracted string
when truthy, else `today.strftime("%Y-%m-%d")`. -/
def resolved_target_date_str (intent : IntentResult) (today : Date) : String :=
  if pyTruthyStr intent.forecast_date then intent.forecast_date.getD ""
  else strftimeYmd today

def hourInWindow (start_hour end_hour : Int) (hr : Nat) : Bool :=
  decide (start_hour ≤ (hr : Int)) && decide ((hr : Int) ≤ end_hour)

def mkHourOut (h : HourEntry) : HourOut := ⟨h.time, h.temp_c, h.condition⟩

/-- The hourly list comprehension: every entry's `"time"` is parsed with
`strptime(_, "%Y-%m-%d %H:%M")` — a non-matching string raises out of the whole
call (`Except.error`); entries whose hour lies in `[start_hour, end_hour]` are
kept in order. -/
def filterHours (start_hour end_hour : Int) : List HourEntry → Except String (List HourOut)
  | [] => .ok []
  | h :: t =>
    match parse_time_hour h.time with
    | none => .error "ValueError"
    | some hr =>
      match filterHours start_hour end_hour t with
      | .error msg => .error msg
      | .ok rest =>
        .ok (if hourInWindow start_hour end_hour hr then mkHourOut h :: rest else rest)

/-- Everything from the WeatherAPI request onward: status check, day selection
by exact date match (`next(... if d["date"] == target_date_str ...)`), `day_dict`
construction, and the optional hour window with
`start_hour = max(0, hour - hours_before)`, `end_hour = min(23, hour + hours_after)`. -/
def weather_stage (city : Option String) (hour : Int) (target_date_str : String)
    (weather : WeatherBehaviour) (include_hours : Bool) (hours_before hours_after : Int) :
    Except String ForecastOutput :=
  match weather with
  | .raiseNet => .error "requests.exceptions.ConnectionError"
  | .resp status_code body =>
    if status_code ≠ 200 then
      .ok (.error ("Failed to retrieve weather data, status code "
        ++ Nat.repr status_code ++ "."))
    else
      match body with
      | .error msg => .error msg
      | .ok data =>
        match data.forecastday.find? (fun d => d.date == target_date_str) with
        | none => .ok (.error "Forecast for target date not found.")
        | some forecast_day =>
          let day_dict : DayDict :=
            ⟨forecast_day.date, forecast_day.maxtemp_c, forecast_day.mintemp_c,
              forecast_day.condition, none⟩
          if include_hours then
            let start_hour := max 0 (hour - hours_before)
            let end_hour := min 23 (hour + hours_after)
            match filterHours start_hour end_hour forecast_day.hour with
            | .error msg => .error msg
            | .ok hs => .ok (.success city { day_dict with hours := some hs })
          else .ok (.success city day_dict)

/-- `get_weather_forecast` after the extractor call, starting from its result.
The target-date fallback re-parses a truthy extracted date with `strptime`
*outside* any `try` (the `.error` branch); the recomputed
`forecast_days = (target_date - today).days + 1` only parameterizes the request
URL, so it does not appear in the observable result. -/
def resolve_with_intent (intent : IntentResult) (today : Date) (nowHour : Nat)
    (geo : GeoBehaviour) (weather : WeatherBehaviour)
    (include_hours : Bool) (hours_before hours_after : Int) :
    Except String ForecastOutput :=
  if pyTruthyStr intent.forecast_date then
    match parse_date (intent.forecast_date.getD "") with
    | none => .error "ValueError"
    | some _target_date =>
      weather_stage (resolve_city intent.city geo) (resolved_hour intent nowHour)
        (intent.forecast_date.getD "") weather include_hours hours_before hours_after
  else
    weather_stage (resolve_city intent.city geo) (resolved_hour intent nowHour)
      (strftimeYmd today) weather include_hours hours_before hours_after

/-- `get_weather_forecast(question, include_hours, hours_before, hours_after)`.
`today`/`nowHour` are `datetime.now()`; the four oracles are the behaviours of
the external calls this request performs. -/
def get_weather_forecast (today : Date) (nowHour : Nat)
    (llm : LLMBehaviour) (jsonDecode : String → Option ExtractObj)
    (geo : GeoBehaviour) (weather : WeatherBehaviour)
    (include_hours : Bool) (hours_before hours_after : Int) :
    Except String ForecastOutput :=
  resolve_with_intent (get_city_and_forecast_days_for_weatherapi today llm jsonDecode)
    today nowHour geo weather include_hours hours_before hours_after

/-! ## Answer composition (`llm_weather_answer.py`) -/

/-- Behaviour of `langdetect.detect(question)` (wrapped in `try/except`). -/
inductive DetectBehaviour where
  | raise
  | lang (code : String)

structure AnswerOut where
  text : String
deriving DecidableEq

/-- `get_weather_llm_answer(question)`. The `get_weather_forecast` call is made
*outside* any `try/except`, so an exception from it propagates (`Except.error`);
the final model call is wrapped. The detected language and the structured
weather data only shape the prompt the opaque model consumes. -/
def get_weather_llm_answer (detect : DetectBehaviour) (today : Date) (nowHour : Nat)
    (llm : LLMBehaviour) (jsonDecode : String → Option ExtractObj)
    (geo : GeoBehaviour) (weather : WeatherBehaviour)
    (answer_llm : LLMBehaviour) : Except String AnswerOut :=
  let _user_language := match detect with | .raise => "en" | .lang c => c
  match get_weather_forecast today nowHour llm jsonDecode geo weather true 2 3 with
  | .error msg => .error msg
  | .ok weather_data =>
    match weather_data with
    | .error _ => .ok ⟨"Sorry, the weather data could not be retrieved."⟩
    | .success _ _ =>
      match answer_llm with
      | .raise msg => .ok ⟨"Error generating the answer: " ++ msg⟩
      | .text s => .ok ⟨pyStrip s⟩

/-! ## Structural invariants used by the proofs -/

/-- A truthy `forecast_date` field always re-parses: the extractor only keeps a
truthy date string after successfully parsing it itself. -/
def DateOk (intent : IntentResult) : Prop :=
  pyTruthyStr intent.forecast_date = true →
    (parse_date (intent.forecast_date.getD "")).isSome

/-! ## Concrete fixtures for witnesses and counterexamples

Each `...Decode` oracle mirrors what Python's `json.loads` does on the exact
strings the corresponding scenario feeds it (and is irrelevant elsewhere). -/

/-- Reference date: `datetime.now().date()` = 2025-11-21. -/
def refDate : Date := ⟨2025, 11, 21⟩

/-- Model output whose JSON names a date one day *before* the reference date. -/
def pastDateText : String :=
  "\x7b\"city\": \"Berlin\", \"forecast_date\": \"2025-11-20\", \"hour\": null\x7d"

def pastDateDecode : String → Option ExtractObj := fun s =>
  if s = pastDateText then some ⟨some (some "Berlin"), some (some "2025-11-20"), some none⟩
  else none

/-- Model output for the spec's end-to-end scenario: Cologne, 2025-11-23, 22 h. -/
def futureDateText : String :=
  "\x7b\"city\": \"Cologne\", \"forecast_date\": \"2025-11-23\", \"hour\": 22\x7d"

def futureDateDecode : String → Option ExtractObj := fun s =>
  if s = futureDateText then
    some ⟨some (some "Cologne"), some (some "2025-11-23"), some (some 22)⟩
  else none

/-- Model output whose JSON parses but whose date field is not a calendar date. -/
def badDateText : String :=
  "\x7b\"city\": \"Berlin\", \"forecast_date\": \"2025-13-40\", \"hour\": null\x7d"

def badDateDecode : String → Option ExtractObj := fun s =>
  if s = badDateText then some ⟨some (some "Berlin"), some (some "2025-13-40"), some none⟩
  else none

/-- Model output whose three JSON fields are all explicitly `null`. -/
def nullFieldsText : String :=
  "\x7b\"city\": null, \"forecast_date\": null, \"hour\": null\x7d"

def nullFieldsDecode : String → Option ExtractObj := fun s =>
  if s = nullFieldsText then some ⟨some none, some none, some none⟩ else none

/-- Model output holding two JSON objects: the first balanced fragment is valid
JSON, but the greedy `\x7b.*\x7d` span covering both is not. -/
def greedyText : String :=
  "\x7b\"city\": \"Paris\", \"forecast_date\": null, \"hour\": null\x7d and \x7b\"x\": 1\x7d"

def parisFragment : String :=
  "\x7b\"city\": \"Paris\", \"forecast_date\": null, \"hour\": null\x7d"

/-- `json.loads` on this scenario: the balanced `parisFragment` decodes, the
greedy two-object span (or anything else) raises. -/
def greedyDecode : String → Option ExtractObj := fun s =>
  if s = parisFragment then some ⟨some (some "Paris"), some none, some none⟩ else none

/-- A provider day entry with hourly entries at the given hours of 2025-11-23. -/
def mkHourAt (h : Nat) : HourEntry := ⟨"2025-11-23 " ++ pad2 h ++ ":00", 5, "Clear"⟩

def day23 : ForecastDayEntry := ⟨"2025-11-23", 7, 1, "Sunny", []⟩

def day23Hours : ForecastDayEntry :=
  ⟨"2025-11-23", 7, 1, "Sunny", [18, 19, 20, 21, 22, 23].map mkHourAt⟩

def day23EarlyHours : ForecastDayEntry :=
  ⟨"2025-11-23", 7, 1, "Sunny", [1, 2, 3].map mkHourAt⟩

def day23BadHours : ForecastDayEntry :=
  ⟨"2025-11-23", 7, 1, "Sunny", [mkHourAt 20, ⟨"20:00", 5, "Clear"⟩]⟩

/-- Provider window `[R, R+1, R+2]` for the day-selection scenario. -/
def dataHit : ForecastData :=
  ⟨[⟨"2025-11-21", 9, 3, "Rain", []⟩, ⟨"2025-11-22", 8, 2, "Cloudy", []⟩, day23]⟩

/-- Provider window that misses the target date. -/
def dataMiss : ForecastData :=
  ⟨[⟨"2025-11-21", 9, 3, "Rain", []⟩, ⟨"2025-11-22", 8, 2, "Cloudy", []⟩]⟩

/-- Single-day provider window anchored at the reference date. -/
def dataToday : ForecastData := ⟨[⟨"2025-11-21", 8, 2, "Cloudy", []⟩]⟩

def dataHitHours : ForecastData := ⟨[day23Hours]⟩

def dataHitEarlyHours : ForecastData := ⟨[day23EarlyHours]⟩

def dataHitBadHours : ForecastData := ⟨[day23BadHours]⟩

/-- The hour-of-day function used to instantiate hour-window witnesses. -/
def hourOfEntry (x : HourEntry) : Nat := (parse_time_hour x.time).getD 0

/-! ## Helper lemmas -/

theorem fullDefault_DateOk (msg : String) : DateOk (fullDefault msg) := by
  intro h
  simp [fullDefault, pyTruthyStr] at h

theorem applyDefaults_DateOk (today : Date) (obj : ExtractObj) :
    DateOk (applyDefaultsAndDays today obj) := by
  unfold DateOk applyDefaultsAndDays
  by_cases h : pyTruthyStr (obj.forecast_date.getD none) = true
  · simp only [h, if_true]
    cases hp : parse_date ((obj.forecast_date.getD none).getD "") with
    | none => exact fullDefault_DateOk _
    | some d => intro _; simp [hp]
  · simp only [h, Bool.false_eq_true, if_false]
    intro hc
    exact absurd hc (by simp [h])

/-- Every record the extractor returns satisfies `DateOk`: a truthy
`forecast_date` was itself produced by a successful `strptime`. -/
theorem extractor_DateOk (today : Date) (llm : LLMBehaviour)
    (dec : String → Option ExtractObj) :
    DateOk (get_city_and_forecast_days_for_weatherapi today llm dec) := by
  cases llm with
  | raise msg => exact fullDefault_DateOk msg
  | text raw =>
    simp only [get_city_and_forecast_days_for_weatherapi]
    cases hf : extract_fragment (pyStrip raw) with
    | none => simp only [hf]; exact applyDefaults_DateOk _ _
    | some frag =>
      simp only [hf]
      cases hd : dec frag with
      | none => simp only [hd]; exact fullDefault_DateOk _
      | some obj => simp only [hd]; exact applyDefaults_DateOk _ _

/-- Under `DateOk`, the resolver reaches the provider request, with the city,
hour and target-date string given by the three fallback computations. -/
theorem resolve_with_intent_eq (intent : IntentResult) (hD : DateOk intent)
    (today : Date) (nowHour : Nat) (geo : GeoBehaviour) (weather : WeatherBehaviour)
    (ih : Bool) (hb ha : Int) :
    resolve_with_intent intent today nowHour geo weather ih hb ha
      = weather_stage (resolve_city intent.city geo) (resolved_hour intent nowHour)
          (resolved_target_date_str intent today) weather ih hb ha := by
  unfold resolve_with_intent resolved_target_date_str
  by_cases h : pyTruthyStr intent.forecast_date = true
  · simp only [h, if_true]
    have hs := hD h
    cases hp : parse_date (intent.forecast_date.getD "") with
    | none => rw [hp] at hs; simp at hs
    | some d => simp
  · simp only [h, Bool.false_eq_true, if_false]

theorem filterHours_parses (s e : Int) (hf : HourEntry → Nat) :
    ∀ l : List HourEntry, (∀ x ∈ l, parse_time_hour x.time = some (hf x)) →
      filterHours s e l
        = .ok ((l.filter (fun x => hourInWindow s e (hf x))).map mkHourOut) := by
  intro l
  induction l with
  | nil => intro _; rfl
  | cons h t ih =>
    intro hp
    have hh : parse_time_hour h.time = some (hf h) := hp h (by simp)
    have ht := ih (fun x hx => hp x (by simp [hx]))
    simp only [filterHours, hh, ht, List.filter_cons]
    by_cases hw : hourInWindow s e (hf h) = true
    · simp [hw]
    · simp [hw]

theorem filterHours_raises (s e : Int) :
    ∀ l : List HourEntry, (∃ x ∈ l, parse_time_hour x.time = none) →
      ∃ msg, filterHours s e l = .error msg := by
  intro l
  induction l with
  | nil => rintro ⟨x, hx, _⟩; cases hx
  | cons h t ih =>
    rintro ⟨x, hx, hpx⟩
    rcases List.mem_cons.mp hx with rfl | hxt
    · exact ⟨"ValueError", by simp [filterHours, hpx]⟩
    · cases hph : parse_time_hour h.time with
      | none => exact ⟨"ValueError", by simp [filterHours, hph]⟩
      | some hr =>
        obtain ⟨msg, hmsg⟩ := ih ⟨x, hxt, hpx⟩
        exact ⟨msg, by simp [filterHours, hph, hmsg]⟩

theorem pyTruthyStr_some_iff (s : String) : pyTruthyStr (some s) = true ↔ s ≠ "" := by
  simp [pyTruthyStr, List.isEmpty_iff, String.ext_iff]

/-- The `forecast_days` computation of the extractor's success path: whenever the
returned dictionary holds a parseable date string, `forecast_days` is exactly
`(target_date - today).days + 1`. -/
theorem applyDefaults_days (today : Date) (obj : ExtractObj) (s : String) (d : Date)
    (h1 : (applyDefaultsAndDays today obj).forecast_date = some s)
    (h2 : parse_date s = some d) :
    (applyDefaultsAndDays today obj).forecast_days
      = (d.toOrdinal : Int) - (today.toOrdinal : Int) + 1 := by
  unfold applyDefaultsAndDays at h1 ⊢
  by_cases ht : pyTruthyStr (obj.forecast_date.getD none) = true
  · simp only [ht, if_true] at h1 ⊢
    cases hp : parse_date ((obj.forecast_date.getD none).getD "") with
    | none =>
      rw [hp] at h1
      simp [fullDefault] at h1
    | some td =>
      rw [hp] at h1
      dsimp only at h1
      rw [h1] at hp
      simp only [Option.getD_some] at hp
      rw [h2] at hp
      injection hp with hpd
      rw [hpd]
  · simp only [ht, Bool.false_eq_true, if_false] at h1 ⊢
    rw [h1] at ht
    have hs : s = "" := by
      by_contra hne
      exact ht ((pyTruthyStr_some_iff s).mpr hne)
    subst hs
    rw [show parse_date "" = none from by decide] at h2
    simp at h2

/-- With `include_hours = true`, any success value `weather_stage` returns
carries a present `hours` field. -/
theorem weather_stage_success_hours (city : Option String) (hour : Int) (tds : String)
    (weather : WeatherBehaviour) (hb ha : Int) (c : Option String) (dd : DayDict)
    (h : weather_stage city hour tds weather true hb ha = .ok (.success c dd)) :
    dd.hours.isSome = true := by
  unfold weather_stage at h
  split at h
  · simp at h
  · split at h
    · simp at h
    · split at h
      · simp at h
      · split at h
        · simp at h
        · split at h
          · dsimp only at h
            split at h
            · simp at h
            · simp only [Except.ok.injEq, ForecastOutput.success.injEq] at h
              obtain ⟨-, h2⟩ := h
              subst h2
              rfl
          · simp_all

/-! ## Claims -/

/-- **C1**, counterexample. The claim asserts `forecast_days` is never less
than 1 even when the extracted date precedes the reference date. With
today = 2025-11-21 and the model naming the parseable date 2025-11-20, the
extractor computes `forecast_days = (D - R).days + 1 = 0 < 1`: the source
applies no clamp. -/
theorem c1_counterexample :
    (parse_date "2025-11-20").isSome = true
      ∧ (get_city_and_forecast_days_for_weatherapi refDate
          (.text pastDateText) pastDateDecode).forecast_days < 1 := by
  decide

/-- **C1** (amended): for every reference date `R` and extracted date string `D`
that parses as `YYYY-MM-DD`, the extractor computes
`forecast_days = (D - R).days + 1` exactly — with no lower bound, so the value
is `0` or negative when `D` is before `R` (the "minimum 1" only arises from the
no-date fallback). -/
theorem c1_forecast_days_formula (today : Date) (llm : LLMBehaviour)
    (dec : String → Option ExtractObj) (s : String) (d : Date)
    (h1 : (get_city_and_forecast_days_for_weatherapi today llm dec).forecast_date = some s)
    (h2 : parse_date s = some d) :
    (get_city_and_forecast_days_for_weatherapi today llm dec).forecast_days
      = (d.toOrdinal : Int) - (today.toOrdinal : Int) + 1 := by
  cases llm with
  | raise msg => simp [get_city_and_forecast_days_for_weatherapi, fullDefault] at h1
  | text raw =>
    simp only [get_city_and_forecast_days_for_weatherapi] at h1 ⊢
    cases hfr : extract_fragment (pyStrip raw) with
    | none =>
      simp only [hfr] at h1 ⊢
      exact applyDefaults_days today _ s d h1 h2
    | some frag =>
      simp only [hfr] at h1 ⊢
      cases hd : dec frag with
      | none => simp only [hd] at h1; simp [fullDefault] at h1
      | some obj =>
        simp only [hd] at h1 ⊢
        exact applyDefaults_days today obj s d h1 h2

/-- **C1** witness: today = 2025-11-21, extracted date 2025-11-23, so
`forecast_days = (2025-11-23 - 2025-11-21).days + 1 = 3`. -/
theorem c1_forecast_days_formula_witness :
    (get_city_and_forecast_days_for_weatherapi refDate
        (.text futureDateText) futureDateDecode).forecast_date = some "2025-11-23"
      ∧ parse_date "2025-11-23" = some ⟨2025, 11, 23⟩
      ∧ (get_city_and_forecast_days_for_weatherapi refDate
          (.text futureDateText) futureDateDecode).forecast_days
          = ((Date.mk 2025 11 23).toOrdinal : Int) - ((Date.mk 2025 11 21).toOrdinal : Int) + 1 :=
  ⟨by decide, by decide,
    c1_forecast_days_formula refDate (.text futureDateText) futureDateDecode
      "2025-11-23" ⟨2025, 11, 23⟩ (by decide) (by decide)⟩

/-- **C4**, counterexample. The claim asserts that the listed model behaviours
— including "text that contains no decodable structured fragment" — all yield
the full default record `{city: "Berlin", forecast_days: 1, hour: none,
error: <message>}`. But when the model's text holds no brace-delimited fragment
at all, no exception is raised and `setdefault` does not replace the
present-but-`None` city of the fallback dictionary: the function returns
`{city: None, forecast_date: None, hour: None, forecast_days: 1}` — city is not
"Berlin" and there is no error field. -/
theorem c4_counterexample :
    (get_city_and_forecast_days_for_weatherapi refDate
        (.text "The model answered with prose only.") (fun _ => none)).city = none
      ∧ (get_city_and_forecast_days_for_weatherapi refDate
          (.text "The model answered with prose only.") (fun _ => none)).error = none := by
  decide

/-- **C4** (amended): the extractor never raises past its boundary (it totally
returns a record); when the model invocation raises, when a located fragment
fails to decode, or when a present non-empty date field fails to parse, it
returns the full default record; but when the model's text contains no
brace-delimited fragment it instead returns
`{city: none, forecast_date: none, hour: none, forecast_days: 1}` with no error
field. -/
theorem c4_failure_behaviours :
    (∀ (today : Date) (msg : String) (dec : String → Option ExtractObj),
        get_city_and_forecast_days_for_weatherapi today (.raise msg) dec = fullDefault msg)
      ∧ (∀ (today : Date) (raw : String) (dec : String → Option ExtractObj) (frag : String),
          extract_fragment (pyStrip raw) = some frag → dec frag = none →
          get_city_and_forecast_days_for_weatherapi today (.text raw) dec
            = fullDefault "JSONDecodeError")
      ∧ (∀ (today : Date) (raw : String) (dec : String → Option ExtractObj)
            (frag : String) (obj : ExtractObj) (s : String),
          extract_fragment (pyStrip raw) = some frag → dec frag = some obj →
          obj.forecast_date = some (some s) → s ≠ "" → parse_date s = none →
          get_city_and_forecast_days_for_weatherapi today (.text raw) dec
            = fullDefault "ValueError")
      ∧ (∀ (today : Date) (raw : String) (dec : String → Option ExtractObj),
          extract_fragment (pyStrip raw) = none →
          get_city_and_forecast_days_for_weatherapi today (.text raw) dec
            = ⟨none, none, none, 1, none⟩) := by
  refine ⟨fun today msg dec => rfl, ?_, ?_, ?_⟩
  · intro today raw dec frag h1 h2
    simp only [get_city_and_forecast_days_for_weatherapi, h1, h2]
  · intro today raw dec frag obj s h1 h2 h3 hs h5
    simp only [get_city_and_forecast_days_for_weatherapi, h1, h2]
    unfold applyDefaultsAndDays
    rw [h3]
    simp only [Option.getD_some]
    rw [if_pos ((pyTruthyStr_some_iff s).mpr hs)]
    simp only [Option.getD_some, h5]
  · intro today raw dec h1
    simp only [get_city_and_forecast_days_for_weatherapi, h1]
    rfl

/-- **C4** witness: concrete instances of all four behaviours — a raising model
call, a fragment `json.loads` rejects, a fragment whose date field does not
parse, and fragment-free prose. -/
theorem c4_failure_behaviours_witness :
    (get_city_and_forecast_days_for_weatherapi refDate (.raise "model down") (fun _ => none)
        = fullDefault "model down")
      ∧ (get_city_and_forecast_days_for_weatherapi refDate (.text "\x7boops\x7d") (fun _ => none)
          = fullDefault "JSONDecodeError")
      ∧ (get_city_and_forecast_days_for_weatherapi refDate (.text badDateText) badDateDecode
          = fullDefault "ValueError")
      ∧ (get_city_and_forecast_days_for_weatherapi refDate (.text "sunny tomorrow") (fun _ => none)
          = ⟨none, none, none, 1, none⟩) :=
  ⟨c4_failure_behaviours.1 refDate "model down" (fun _ => none),
    c4_failure_behaviours.2.1 refDate "\x7boops\x7d" (fun _ => none) "\x7boops\x7d"
      (by decide) (by decide),
    c4_failure_behaviours.2.2.1 refDate badDateText badDateDecode badDateText
      ⟨some (some "Berlin"), some (some "2025-13-40"), some none⟩ "2025-13-40"
      (by decide) (by decide) (by decide) (by decide) (by decide),
    c4_failure_behaviours.2.2.2 refDate "sunny tomorrow" (fun _ => none) (by decide)⟩

/-- **C6**, counterexample. The claim says the extractor locates and decodes the
*first balanced* brace-delimited fragment, and on decode failure falls back to
`{city: none, target_date: none, hour: none}` before field defaults. On a text
holding two JSON objects, the code instead matches the greedy span from the
first `\x7b` to the last `\x7d` (not valid JSON, though the first balanced
fragment decodes to city "Paris" — third conjunct), and the decode failure takes
the exception path to the full default record: city "Berlin" with an error
field, not the claimed fallback. -/
theorem c6_counterexample :
    (get_city_and_forecast_days_for_weatherapi refDate (.text greedyText) greedyDecode).city
        = some "Berlin"
      ∧ (get_city_and_forecast_days_for_weatherapi refDate (.text greedyText) greedyDecode).error
          = some "JSONDecodeError"
      ∧ greedyDecode parisFragment = some ⟨some (some "Paris"), some none, some none⟩
      ∧ extract_fragment greedyText = some greedyText := by
  decide

/-- **C6** (amended): the extractor matches the greedy span from the first
opening brace to the last closing brace of the model's text. When no such span
exists it falls back to `{city: none, forecast_date: none, hour: none}` and
applies field-level defaults (yielding `forecast_days = 1` and leaving the
present-but-`None` fields untouched); when the span fails to decode, the
exception path returns the full default record instead. -/
theorem c6_fragment_handling :
    (∀ (today : Date) (raw : String) (dec : String → Option ExtractObj),
        extract_fragment (pyStrip raw) = none →
        get_city_and_forecast_days_for_weatherapi today (.text raw) dec
          = ⟨none, none, none, 1, none⟩)
      ∧ (∀ (today : Date) (raw : String) (dec : String → Option ExtractObj) (frag : String),
          extract_fragment (pyStrip raw) = some frag → dec frag = none →
          get_city_and_forecast_days_for_weatherapi today (.text raw) dec
            = fullDefault "JSONDecodeError") := by
  constructor
  · intro today raw dec h1
    simp only [get_city_and_forecast_days_for_weatherapi, h1]
    rfl
  · intro today raw dec frag h1 h2
    simp only [get_city_and_forecast_days_for_weatherapi, h1, h2]

/-- **C6** witness: fragment-free prose degrades to the all-`none` record with
`forecast_days = 1`; a located but undecodable fragment yields the full default
record. -/
theorem c6_fragment_handling_witness :
    (get_city_and_forecast_days_for_weatherapi refDate (.text "cloudy, no data") (fun _ => none)
        = ⟨none, none, none, 1, none⟩)
      ∧ (get_city_and_forecast_days_for_weatherapi refDate (.text "x \x7b not json \x7d y")
          (fun _ => none) = fullDefault "JSONDecodeError") :=
  ⟨c6_fragment_handling.1 refDate "cloudy, no data" (fun _ => none) (by decide),
    c6_fragment_handling.2 refDate "x \x7b not json \x7d y" (fun _ => none)
      "\x7b not json \x7d" (by decide) (by decide)⟩

/-- **C7** (confirmed): for every provider response with status code ≠ 200,
`get_weather_forecast` returns the error marker embedding that code — for any
response body, any geolocation behaviour and any hour-window arguments alike
(so no day selection or hour filtering is performed), and as an ordinary return
value (`Except.ok`), not an exception. -/
theorem c7_non_success_status (today : Date) (nowHour : Nat) (llm : LLMBehaviour)
    (dec : String → Option ExtractObj) (geo : GeoBehaviour) (code : Nat)
    (body : Except String ForecastData) (ih : Bool) (hb ha : Int)
    (hcode : code ≠ 200) :
    get_weather_forecast today nowHour llm dec geo (.resp code body) ih hb ha
      = .ok (.error ("Failed to retrieve weather data, status code "
          ++ Nat.repr code ++ ".")) := by
  unfold get_weather_forecast
  rw [resolve_with_intent_eq _ (extractor_DateOk today llm dec)]
  unfold weather_stage
  simp [hcode]

/-- **C7** witness: a 503 response yields exactly the marker
`{"error": "Failed to retrieve weather data, status code 503."}`. -/
theorem c7_non_success_status_witness :
    (503 ≠ 200)
      ∧ get_weather_forecast refDate 9 (.raise "model down") (fun _ => none) .raise
          (.resp 503 (.ok ⟨[]⟩)) true 2 3
          = .ok (.error "Failed to retrieve weather data, status code 503.") :=
  ⟨by decide,
    (c7_non_success_status refDate 9 (.raise "model down") (fun _ => none) .raise 503
      (.ok ⟨[]⟩) true 2 3 (by decide)).trans (by decide)⟩

/-- **C2** (confirmed): with a success (200) provider response,
`get_weather_forecast` selects the day entry by exact date-string match against
the resolved target date — not by positional offset. If no entry's date equals
the target (first conjunct, for any `include_hours`) it returns the error marker
`{"error": "Forecast for target date not found."}` as a value, raising no
exception; if `find?` locates the matching entry (second conjunct, stated for
`include_hours = false` to isolate day selection), the success result is built
exactly from that entry's fields. -/
theorem c2_day_selection :
    (∀ (today : Date) (nowHour : Nat) (llm : LLMBehaviour)
        (dec : String → Option ExtractObj) (geo : GeoBehaviour) (data : ForecastData)
        (ih : Bool) (hb ha : Int),
        (∀ fd ∈ data.forecastday,
          fd.date ≠ resolved_target_date_str
            (get_city_and_forecast_days_for_weatherapi today llm dec) today) →
        get_weather_forecast today nowHour llm dec geo (.resp 200 (.ok data)) ih hb ha
          = .ok (.error "Forecast for target date not found."))
      ∧ (∀ (today : Date) (nowHour : Nat) (llm : LLMBehaviour)
          (dec : String → Option ExtractObj) (geo : GeoBehaviour) (data : ForecastData)
          (hb ha : Int) (fd : ForecastDayEntry),
          data.forecastday.find?
            (fun d => d.date == resolved_target_date_str
              (get_city_and_forecast_days_for_weatherapi today llm dec) today) = some fd →
          get_weather_forecast today nowHour llm dec geo (.resp 200 (.ok data)) false hb ha
            = .ok (.success
                (resolve_city (get_city_and_forecast_days_for_weatherapi today llm dec).city geo)
                ⟨fd.date, fd.maxtemp_c, fd.mintemp_c, fd.condition, none⟩)) := by
  constructor
  · intro today nowHour llm dec geo data ih hb ha hnone
    unfold get_weather_forecast
    rw [resolve_with_intent_eq _ (extractor_DateOk today llm dec)]
    unfold weather_stage
    have hfind : data.forecastday.find?
        (fun d => d.date == resolved_target_date_str
          (get_city_and_forecast_days_for_weatherapi today llm dec) today) = none :=
      List.find?_eq_none.mpr (fun x hx => by simp [hnone x hx])
    simp [hfind]
  · intro today nowHour llm dec geo data hb ha fd hfind
    unfold get_weather_forecast
    rw [resolve_with_intent_eq _ (extractor_DateOk today llm dec)]
    unfold weather_stage
    simp [hfind]

/-- **C2** witness: the spec's scenario — provider window `[R, R+1, R+2]`,
target `R+2 = 2025-11-23` — selects exactly the `R+2` entry; dropping that entry
from the window yields the not-found marker. -/
theorem c2_day_selection_witness :
    (get_weather_forecast refDate 9 (.text futureDateText) futureDateDecode .raise
        (.resp 200 (.ok dataMiss)) true 2 3
        = .ok (.error "Forecast for target date not found."))
      ∧ (get_weather_forecast refDate 9 (.text futureDateText) futureDateDecode .raise
          (.resp 200 (.ok dataHit)) false 2 3
          = .ok (.success (some "Cologne") ⟨"2025-11-23", 7, 1, "Sunny", none⟩)) :=
  ⟨c2_day_selection.1 refDate 9 (.text futureDateText) futureDateDecode .raise dataMiss
      true 2 3 (by decide),
    (c2_day_selection.2 refDate 9 (.text futureDateText) futureDateDecode .raise dataHit
      2 3 day23 (by decide)).trans (by decide)⟩

/-- **C3** (confirmed): with `include_hours = true`, a found target day, and a
resolved hour `h` (here: an extracted hour, any value in `[0, 23]`),
`get_weather_forecast` retains exactly those hourly entries whose parsed
hour-of-day lies in the inclusive window
`[max(0, h - hours_before), min(23, h + hours_after)]`, in their original
(chronological) order — the upper bound is clamped at 23, so the window never
wraps into the next day. -/
theorem c3_hour_window (today : Date) (nowHour : Nat) (llm : LLMBehaviour)
    (dec : String → Option ExtractObj) (geo : GeoBehaviour) (data : ForecastData)
    (hb ha : Int) (h : Int) (fd : ForecastDayEntry) (hf : HourEntry → Nat)
    (hhour : (get_city_and_forecast_days_for_weatherapi today llm dec).hour = some h)
    (_h0 : 0 ≤ h) (_h23 : h ≤ 23)
    (hfind : data.forecastday.find?
      (fun d => d.date == resolved_target_date_str
        (get_city_and_forecast_days_for_weatherapi today llm dec) today) = some fd)
    (hparse : ∀ x ∈ fd.hour, parse_time_hour x.time = some (hf x)) :
    get_weather_forecast today nowHour llm dec geo (.resp 200 (.ok data)) true hb ha
      = .ok (.success
          (resolve_city (get_city_and_forecast_days_for_weatherapi today llm dec).city geo)
          ⟨fd.date, fd.maxtemp_c, fd.mintemp_c, fd.condition,
            some ((fd.hour.filter
              (fun x => hourInWindow (max 0 (h - hb)) (min 23 (h + ha)) (hf x))).map
                mkHourOut)⟩) := by
  unfold get_weather_forecast
  rw [resolve_with_intent_eq _ (extractor_DateOk today llm dec)]
  have hres : resolved_hour (get_city_and_forecast_days_for_weatherapi today llm dec) nowHour
      = h := by simp [resolved_hour, hhour]
  rw [hres]
  unfold weather_stage
  have hfh := filterHours_parses (max 0 (h - hb)) (min 23 (h + ha)) hf fd.hour hparse
  simp [hfind, hfh]

/-- **C3** witness: the spec's instance — hour 22, `hours_before = 2`,
`hours_after = 3` on a day carrying hourly entries 18:00–23:00 — retains exactly
the 20:00, 21:00, 22:00 and 23:00 entries (window `[20, 23]`, clamped, no
wrap). -/
theorem c3_hour_window_witness :
    get_weather_forecast refDate 9 (.text futureDateText) futureDateDecode .raise
        (.resp 200 (.ok dataHitHours)) true 2 3
      = .ok (.success (some "Cologne") ⟨"2025-11-23", 7, 1, "Sunny",
          some [⟨"2025-11-23 20:00", 5, "Clear"⟩, ⟨"2025-11-23 21:00", 5, "Clear"⟩,
            ⟨"2025-11-23 22:00", 5, "Clear"⟩, ⟨"2025-11-23 23:00", 5, "Clear"⟩]⟩) :=
  (c3_hour_window refDate 9 (.text futureDateText) futureDateDecode .raise dataHitHours
    2 3 22 day23Hours hourOfEntry (by decide) (by decide) (by decide) (by decide)
    (by decide)).trans (by decide)

/-- **C9** (confirmed): when `include_hours = true`, every success result of
`get_weather_forecast` carries the `"hours"` key (first conjunct, over all
behaviours); and when every hourly entry parses but none falls inside the
clamped window, the call still returns a success result whose `"hours"` value is
the empty list — never an error marker (second conjunct). -/
theorem c9_hours_key :
    (∀ (today : Date) (nowHour : Nat) (llm : LLMBehaviour)
        (dec : String → Option ExtractObj) (geo : GeoBehaviour)
        (weather : WeatherBehaviour) (hb ha : Int) (c : Option String) (dd : DayDict),
        get_weather_forecast today nowHour llm dec geo weather true hb ha
          = .ok (.success c dd) →
        dd.hours.isSome = true)
      ∧ (∀ (today : Date) (nowHour : Nat) (llm : LLMBehaviour)
          (dec : String → Option ExtractObj) (geo : GeoBehaviour) (data : ForecastData)
          (hb ha : Int) (fd : ForecastDayEntry) (hf : HourEntry → Nat),
          data.forecastday.find?
            (fun d => d.date == resolved_target_date_str
              (get_city_and_forecast_days_for_weatherapi today llm dec) today) = some fd →
          (∀ x ∈ fd.hour, parse_time_hour x.time = some (hf x)) →
          (∀ x ∈ fd.hour, hourInWindow
            (max 0 (resolved_hour (get_city_and_forecast_days_for_weatherapi today llm dec)
              nowHour - hb))
            (min 23 (resolved_hour (get_city_and_forecast_days_for_weatherapi today llm dec)
              nowHour + ha)) (hf x) = false) →
          get_weather_forecast today nowHour llm dec geo (.resp 200 (.ok data)) true hb ha
            = .ok (.success
                (resolve_city (get_city_and_forecast_days_for_weatherapi today llm dec).city geo)
                ⟨fd.date, fd.maxtemp_c, fd.mintemp_c, fd.condition, some []⟩)) := by
  constructor
  · intro today nowHour llm dec geo weather hb ha c dd h
    unfold get_weather_forecast at h
    rw [resolve_with_intent_eq _ (extractor_DateOk today llm dec)] at h
    exact weather_stage_success_hours _ _ _ _ _ _ _ _ h
  · intro today nowHour llm dec geo data hb ha fd hf hfind hparse hout
    unfold get_weather_forecast
    rw [resolve_with_intent_eq _ (extractor_DateOk today llm dec)]
    unfold weather_stage
    have hfh := filterHours_parses
      (max 0 (resolved_hour (get_city_and_forecast_days_for_weatherapi today llm dec)
        nowHour - hb))
      (min 23 (resolved_hour (get_city_and_forecast_days_for_weatherapi today llm dec)
        nowHour + ha)) hf fd.hour hparse
    have hnil : fd.hour.filter (fun x => hourInWindow
        (max 0 (resolved_hour (get_city_and_forecast_days_for_weatherapi today llm dec)
          nowHour - hb))
        (min 23 (resolved_hour (get_city_and_forecast_days_for_weatherapi today llm dec)
          nowHour + ha)) (hf x)) = [] :=
      List.filter_eq_nil_iff.mpr (fun x hx => by simp [hout x hx])
    rw [hnil] at hfh
    simp [hfind, hfh]

/-- **C9** witness: entries at 01:00–03:00 with resolved hour 22 and window
`[20, 23]` yield a success result with `"hours" = []`; the first conjunct
applied to that result confirms the `"hours"` key is present. -/
theorem c9_hours_key_witness :
    ((⟨"2025-11-23", 7, 1, "Sunny", some []⟩ : DayDict).hours.isSome = true)
      ∧ (get_weather_forecast refDate 9 (.text futureDateText) futureDateDecode .raise
          (.resp 200 (.ok dataHitEarlyHours)) true 2 3
          = .ok (.success (some "Cologne") ⟨"2025-11-23", 7, 1, "Sunny", some []⟩)) :=
  ⟨c9_hours_key.1 refDate 9 (.text futureDateText) futureDateDecode .raise
      (.resp 200 (.ok dataHitEarlyHours)) 2 3 (some "Cologne")
      ⟨"2025-11-23", 7, 1, "Sunny", some []⟩ (by decide),
    (c9_hours_key.2 refDate 9 (.text futureDateText) futureDateDecode .raise
      dataHitEarlyHours 2 3 day23EarlyHours hourOfEntry (by decide) (by decide)
      (by decide)).trans (by decide)⟩

/-- **C10** (confirmed): the hourly filter parses each entry's `"time"` with the
fixed format `%Y-%m-%d %H:%M`. When every time string of the selected day
matches, the call (with `include_hours = true`) returns a value (first
conjunct); when a single entry's time string does not match, the whole call
raises (`Except.error`) instead of returning an error-marker value (second
conjunct). -/
theorem c10_hour_parse_totality :
    (∀ (today : Date) (nowHour : Nat) (llm : LLMBehaviour)
        (dec : String → Option ExtractObj) (geo : GeoBehaviour) (data : ForecastData)
        (hb ha : Int) (fd : ForecastDayEntry),
        data.forecastday.find?
          (fun d => d.date == resolved_target_date_str
            (get_city_and_forecast_days_for_weatherapi today llm dec) today) = some fd →
        (∀ x ∈ fd.hour, (parse_time_hour x.time).isSome = true) →
        ∃ v, get_weather_forecast today nowHour llm dec geo (.resp 200 (.ok data)) true hb ha
          = .ok v)
      ∧ (∀ (today : Date) (nowHour : Nat) (llm : LLMBehaviour)
          (dec : String → Option ExtractObj) (geo : GeoBehaviour) (data : ForecastData)
          (hb ha : Int) (fd : ForecastDayEntry) (x : HourEntry),
          data.forecastday.find?
            (fun d => d.date == resolved_target_date_str
              (get_city_and_forecast_days_for_weatherapi today llm dec) today) = some fd →
          x ∈ fd.hour → parse_time_hour x.time = none →
          ∃ msg, get_weather_forecast today nowHour llm dec geo (.resp 200 (.ok data)) true hb ha
            = .error msg) := by
  constructor
  · intro today nowHour llm dec geo data hb ha fd hfind hall
    have hparse : ∀ x ∈ fd.hour,
        parse_time_hour x.time = some ((parse_time_hour x.time).getD 0) := by
      intro x hx
      cases hp : parse_time_hour x.time with
      | none =>
        have hgot := hall x hx
        rw [hp] at hgot
        simp at hgot
      | some v => simp
    unfold get_weather_forecast
    rw [resolve_with_intent_eq _ (extractor_DateOk today llm dec)]
    unfold weather_stage
    have hfh := filterHours_parses
      (max 0 (resolved_hour (get_city_and_forecast_days_for_weatherapi today llm dec)
        nowHour - hb))
      (min 23 (resolved_hour (get_city_and_forecast_days_for_weatherapi today llm dec)
        nowHour + ha)) (fun x => (parse_time_hour x.time).getD 0) fd.hour hparse
    exact ⟨.success
      (resolve_city (get_city_and_forecast_days_for_weatherapi today llm dec).city geo)
      ⟨fd.date, fd.maxtemp_c, fd.mintemp_c, fd.condition,
        some ((fd.hour.filter (fun x => hourInWindow
          (max 0 (resolved_hour (get_city_and_forecast_days_for_weatherapi today llm dec)
            nowHour - hb))
          (min 23 (resolved_hour (get_city_and_forecast_days_for_weatherapi today llm dec)
            nowHour + ha)) ((parse_time_hour x.time).getD 0))).map mkHourOut)⟩,
      by simp [hfind, hfh]⟩
  · intro today nowHour llm dec geo data hb ha fd x hfind hx hpx
    unfold get_weather_forecast
    rw [resolve_with_intent_eq _ (extractor_DateOk today llm dec)]
    unfold weather_stage
    obtain ⟨msg, hmsg⟩ := filterHours_raises
      (max 0 (resolved_hour (get_city_and_forecast_days_for_weatherapi today llm dec)
        nowHour - hb))
      (min 23 (resolved_hour (get_city_and_forecast_days_for_weatherapi today llm dec)
        nowHour + ha)) fd.hour ⟨x, hx, hpx⟩
    exact ⟨msg, by simp [hfind, hmsg]⟩

/-- **C10** witness: with all six time strings well-formed the call returns a
value; replacing one entry's time with `"20:00"` (no date part) makes the very
same call raise. -/
theorem c10_hour_parse_totality_witness :
    (∃ v, get_weather_forecast refDate 9 (.text futureDateText) futureDateDecode .raise
        (.resp 200 (.ok dataHitHours)) true 2 3 = .ok v)
      ∧ (∃ msg, get_weather_forecast refDate 9 (.text futureDateText) futureDateDecode .raise
          (.resp 200 (.ok dataHitBadHours)) true 2 3 = .error msg) :=
  ⟨c10_hour_parse_totality.1 refDate 9 (.text futureDateText) futureDateDecode .raise
      dataHitHours 2 3 day23Hours (by decide) (by decide),
    c10_hour_parse_totality.2 refDate 9 (.text futureDateText) futureDateDecode .raise
      dataHitBadHours 2 3 day23BadHours ⟨"20:00", 5, "Clear"⟩ (by decide) (by decide)
      (by decide)⟩

/-- **C8**, counterexample. The claim asserts the resolved city is never
absent. But `ip_data.get("city", "Berlin")` substitutes "Berlin" only when the
`"city"` key is *missing*: when the extractor produced no city (here: explicit
JSON `null` fields, which `setdefault` does not replace) and the geolocation
response carries `"city": null`, the resolved city is `None` — the success
result's city field is absent. -/
theorem c8_counterexample :
    get_weather_forecast refDate 9 (.text nullFieldsText) nullFieldsDecode
        (.resp (some none)) (.resp 200 (.ok dataToday)) false 2 3
      = .ok (.success none ⟨"2025-11-21", 8, 2, "Cloudy", none⟩) := by
  decide

/-- **C8** (amended): when extraction produced no usable city, the resolved city
is "Berlin" if the geolocation call raises (first conjunct) or its response
lacks a `"city"` key (second conjunct); when the key is present, the resolved
city is exactly its value (third conjunct) — which is a name when the field is a
string, but absent when the field is JSON `null`, so the resolved city can be
absent. -/
theorem c8_city_resolution (today : Date) (nowHour : Nat) (llm : LLMBehaviour)
    (dec : String → Option ExtractObj) (data : ForecastData) (hb ha : Int)
    (fd : ForecastDayEntry)
    (hcity : pyTruthyStr (get_city_and_forecast_days_for_weatherapi today llm dec).city
      = false)
    (hfind : data.forecastday.find?
      (fun d => d.date == resolved_target_date_str
        (get_city_and_forecast_days_for_weatherapi today llm dec) today) = some fd) :
    (get_weather_forecast today nowHour llm dec .raise (.resp 200 (.ok data)) false hb ha
        = .ok (.success (some "Berlin")
            ⟨fd.date, fd.maxtemp_c, fd.mintemp_c, fd.condition, none⟩))
      ∧ (get_weather_forecast today nowHour llm dec (.resp none) (.resp 200 (.ok data))
          false hb ha
          = .ok (.success (some "Berlin")
              ⟨fd.date, fd.maxtemp_c, fd.mintemp_c, fd.condition, none⟩))
      ∧ (∀ v : Option String,
          get_weather_forecast today nowHour llm dec (.resp (some v)) (.resp 200 (.ok data))
            false hb ha
            = .ok (.success v ⟨fd.date, fd.maxtemp_c, fd.mintemp_c, fd.condition, none⟩)) := by
  refine ⟨?_, ?_, fun v => ?_⟩
  all_goals
    unfold get_weather_forecast
    rw [resolve_with_intent_eq _ (extractor_DateOk today llm dec)]
    unfold weather_stage
    simp [hfind, resolve_city, hcity]

/-- **C8** witness: an all-`null` extraction with the three geolocation
behaviours — exception, missing city key, and city "Hamburg". -/
theorem c8_city_resolution_witness :
    (get_weather_forecast refDate 9 (.text nullFieldsText) nullFieldsDecode .raise
        (.resp 200 (.ok dataToday)) false 2 3
        = .ok (.success (some "Berlin") ⟨"2025-11-21", 8, 2, "Cloudy", none⟩))
      ∧ (get_weather_forecast refDate 9 (.text nullFieldsText) nullFieldsDecode (.resp none)
          (.resp 200 (.ok dataToday)) false 2 3
          = .ok (.success (some "Berlin") ⟨"2025-11-21", 8, 2, "Cloudy", none⟩))
      ∧ (get_weather_forecast refDate 9 (.text nullFieldsText) nullFieldsDecode
          (.resp (some (some "Hamburg"))) (.resp 200 (.ok dataToday)) false 2 3
          = .ok (.success (some "Hamburg") ⟨"2025-11-21", 8, 2, "Cloudy", none⟩)) :=
  ⟨((c8_city_resolution refDate 9 (.text nullFieldsText) nullFieldsDecode dataToday 2 3
      ⟨"2025-11-21", 8, 2, "Cloudy", []⟩ (by decide) (by decide)).1).trans (by decide),
    ((c8_city_resolution refDate 9 (.text nullFieldsText) nullFieldsDecode dataToday 2 3
      ⟨"2025-11-21", 8, 2, "Cloudy", []⟩ (by decide) (by decide)).2.1).trans (by decide),
    ((c8_city_resolution refDate 9 (.text nullFieldsText) nullFieldsDecode dataToday 2 3
      ⟨"2025-11-21", 8, 2, "Cloudy", []⟩ (by decide) (by decide)).2.2 (some "Hamburg")).trans
      (by decide)⟩

/-- **C5** (code bug): the spec's policy says no external-capability failure
escapes `get_weather_llm_answer` as an unhandled exception, and the source's own
docstring claims errors are handled "if the LLM or API fails" — but the
`requests.get` call to the weather provider (and its `response.json()`) sits
outside every `try/except`. Here every other capability fails and is handled
(language detection defaults, the model failure degrades to the default intent),
yet a transport-level exception from the weather call propagates out of the
whole pipeline as `Except.error`, not as a `{"text": ...}` fallback value. -/
theorem c5_transport_exception_escapes :
    get_weather_llm_answer .raise refDate 9 (.raise "model down") (fun _ => none)
        .raise .raiseNet (.raise "model down again")
      = .error "requests.exceptions.ConnectionError" := by
  decide

end WeatherInsight
